import Mathlib

/-!
Shallow embedding of `src/pem/be/main.py` (the `GeminiWrapper` class, the
FastAPI `lifespan` startup hook and the `/chat` and `/health` endpoints).

The external Gemini API is modelled as an environment `Env` of oracle
functions (file existence on disk, the result of `genai.upload_file`, the
readiness state returned by each `genai.get_file` call, and
`chat_session.send_message`).  The mutable attributes of the single
`GeminiWrapper` instance are modelled as an explicit state `WrapperState`
threaded through the operations.  Each operation additionally returns the
list of paths for which `_upload_to_gemini` was invoked, so that claims of
the form "no upload call is attempted" are statable.
-/

namespace AiProfs

/-- Readiness state of an uploaded file as reported by `genai.get_file`
(`file.state.name` in the source: `"PROCESSING"`, `"ACTIVE"`, anything else
is grouped as `failed`). -/
inductive FileState where
  | processing
  | active
  | failed
deriving DecidableEq

/-- The `name` attribute string of a `FileState`, as compared against in
`_wait_for_files_active`. -/
def FileState.stateName : FileState → String
  | .processing => "PROCESSING"
  | .active => "ACTIVE"
  | .failed => "FAILED"

/-- The opaque file object returned by `genai.upload_file`: we keep the
`name` (used by `genai.get_file`) and `uri` attributes. -/
structure UploadedFile where
  name : String
  uri : String
deriving DecidableEq

/-- An opaque chat session returned by `self.model.start_chat(history=[ ... ])`.
We record the value of `self.processed_files` it was seeded with, which in
the source is read from the attribute at creation time and hence may in
principle be `None`. -/
structure ChatSession where
  seededWith : Option (List UploadedFile)
deriving DecidableEq

/-- The typed failures raised inside `upload_and_process_files`:
`FileNotFoundError(f"Required file not found: {path}")` and
`Exception(f"File {file.name} failed to process. Current state: {state}")`. -/
inductive BootError where
  | missingFile (path : String)
  | processingError (name : String) (state : FileState)
deriving DecidableEq

/-- The message text of a `BootError`, mirroring the Python format strings. -/
def bootErrorMessage : BootError → String
  | .missingFile p => "Required file not found: " ++ p
  | .processingError n s =>
      "File " ++ n ++ " failed to process. Current state: " ++ s.stateName

/-- Oracles for the external world: the filesystem and the Gemini API.
`getFile n k` is the state returned by the k-th `genai.get_file` call for the
file named `n` during one `_wait_for_files_active` run (k = 0 is the call made
before entering the while loop). -/
structure Env where
  fileExists : String → Bool
  uploadFile : String → UploadedFile
  getFile : String → Nat → FileState
  sendMessage : ChatSession → String → Except String String

/-- The mutable attributes of the single `GeminiWrapper` instance:
`self.processed_files`, `self.chat_sessions`, `self.file_paths`, plus the
entry of the `@lru_cache(maxsize=1)` decorator on
`upload_and_process_files` (keyed by `self`, so at most one entry; Python's
`lru_cache` stores only normal returns, never exceptions). -/
structure WrapperState where
  processedFiles : Option (List UploadedFile)
  chatSessions : List (String × ChatSession)
  filePaths : List String
  uploadCache : Option (List UploadedFile)
deriving DecidableEq

/-- Embedding of `GeminiWrapper.__init__`: requires a non-empty API key
(`if not api_key: raise ValueError(...)`), then initialises
`processed_files = None`, `chat_sessions = {}` and the two fixed document
paths relative to the script directory. -/
def initWrapper (apiKey : Option String) (scriptDir : String) :
    Except String WrapperState :=
  match apiKey with
  | none => .error "GEMINI_API_KEY environment variable is not set"
  | some k =>
    if k = "" then .error "GEMINI_API_KEY environment variable is not set"
    else .ok
      { processedFiles := none
        chatSessions := []
        filePaths := [scriptDir ++ "/march24.pdf", scriptDir ++ "/nov23.pdf"]
        uploadCache := none }

/-- The inner `while file.state.name == "PROCESSING" and retry_count < max_retries`
loop of `_wait_for_files_active`, for one file.  `getF k` is the state
returned by the k-th `genai.get_file` call for this file; `s` is the state
from the most recent call, `k` its index, `r` the current (shared!) retry
count and `t` the total time slept so far.  The fuel argument stands for
`max_retries - retry_count`, which strictly decreases on every iteration.
Each iteration sleeps 10 time-units, re-fetches the file and increments the
shared retry count. -/
def pollWhileAux (getF : Nat → FileState) :
    Nat → FileState → Nat → Nat → Nat → FileState × Nat × Nat
  | 0, s, _, r, t => (s, r, t)
  | fuel + 1, s, k, r, t =>
    if s = .processing then
      pollWhileAux getF fuel (getF (k + 1)) (k + 1) (r + 1) (t + 10)
    else (s, r, t)

/-- The inner polling loop with the loop bound expressed as in the source:
it runs while the state is `PROCESSING` and `r < maxRetries`. -/
def pollWhile (getF : Nat → FileState) (maxRetries : Nat) (s : FileState)
    (k r t : Nat) : FileState × Nat × Nat :=
  pollWhileAux getF (maxRetries - r) s k r t

/-- Embedding of `GeminiWrapper._wait_for_files_active`, parametrised by the `get_file`
oracle: iterates over the file names in order; for each, fetches the state
once, runs the inner polling loop (sharing the single `retry_count` across
all files), and raises if the final observed state is not `ACTIVE`.
Returns the final retry count and total slept time on success. -/
def waitFiles (getFile : String → Nat → FileState) (maxRetries : Nat) :
    List String → Nat → Nat → Except (String × FileState) (Nat × Nat)
  | [], r, t => .ok (r, t)
  | n :: rest, r, t =>
    let res := pollWhile (getFile n) maxRetries (getFile n 0) 0 r t
    if res.1 = .active then waitFiles getFile maxRetries rest res.2.1 res.2.2
    else .error (n, res.1)

/-- The `for path in self.file_paths: if not os.path.exists(path): raise`
loop: returns the first configured path that does not exist, if any. -/
def firstMissingFile (fileExists : String → Bool) : List String → Option String
  | [] => none
  | p :: rest => if fileExists p then firstMissingFile fileExists rest else some p

/-- The body of `upload_and_process_files` (what runs when the `lru_cache`
entry is absent): if `self.processed_files` is already set, return it;
otherwise verify that every configured path exists (failing on the first
missing one before any upload), upload every file in order, wait for all of
them to become active with `maxRetries = 30`, and store the list in
`self.processed_files`.  The second component is the list of paths passed to
`_upload_to_gemini`. -/
def uploadAndProcessFilesBody (env : Env) (st : WrapperState) :
    Except BootError (List UploadedFile × WrapperState) × List String :=
  match st.processedFiles with
  | some fs => (.ok (fs, st), [])
  | none =>
    match firstMissingFile env.fileExists st.filePaths with
    | some p => (.error (.missingFile p), [])
    | none =>
      let files := st.filePaths.map env.uploadFile
      match waitFiles env.getFile 30 (files.map UploadedFile.name) 0 0 with
      | .error (n, s) => (.error (.processingError n s), st.filePaths)
      | .ok _ =>
        (.ok (files, { st with processedFiles := some files }), st.filePaths)

/-- Embedding of `upload_and_process_files` as seen by callers, including its
`@lru_cache(maxsize=1)` decorator: a cached value is returned without
executing the body at all; a normal return is stored in the cache; an
exception is propagated and nothing is cached. -/
def uploadAndProcessFiles (env : Env) (st : WrapperState) :
    Except BootError (List UploadedFile) × WrapperState × List String :=
  match st.uploadCache with
  | some v => (.ok v, st, [])
  | none =>
    match uploadAndProcessFilesBody env st with
    | (.ok (fs, st'), ups) => (.ok fs, { st' with uploadCache := some fs }, ups)
    | (.error e, ups) => (.error e, st, ups)

/-- Embedding of `GeminiWrapper.get_session_id`: use the `X-Session-Id` header value if
it is truthy (`if not session_id` treats both a missing header and an empty
string as absent), otherwise a freshly generated UUID string. -/
def getSessionId (header : Option String) (freshUuid : String) : String :=
  match header with
  | none => freshUuid
  | some s => if s = "" then freshUuid else s

/-- Lookup in the `self.chat_sessions` dict. -/
def lookupSession : List (String × ChatSession) → String → Option ChatSession
  | [], _ => none
  | (k, v) :: rest, sid => if sid = k then some v else lookupSession rest sid

/-- Embedding of `GeminiWrapper.get_chat_session`: return the stored session if the id is
present; otherwise run `upload_and_process_files` when `self.processed_files`
is `None` (propagating its exception), then create a session seeded with the
current value of `self.processed_files` and store it under the id. -/
def getChatSession (env : Env) (st : WrapperState) (sid : String) :
    Except BootError ChatSession × WrapperState × List String :=
  match lookupSession st.chatSessions sid with
  | some cs => (.ok cs, st, [])
  | none =>
    if st.processedFiles = none then
      match uploadAndProcessFiles env st with
      | (.error e, st1, ups) => (.error e, st1, ups)
      | (.ok _, st1, ups) =>
        let cs : ChatSession := ⟨st1.processedFiles⟩
        (.ok cs, { st1 with chatSessions := (sid, cs) :: st1.chatSessions }, ups)
    else
      let cs : ChatSession := ⟨st.processedFiles⟩
      (.ok cs, { st with chatSessions := (sid, cs) :: st.chatSessions }, [])

/-- Embedding of `GeminiWrapper.get_response`: get (or create) the chat session and send
the message; any exception is converted to an HTTP 500 with detail
`"Error processing message: ..."`. -/
def getResponse (env : Env) (st : WrapperState) (message sid : String) :
    Except (Nat × String) String × WrapperState :=
  match getChatSession env st sid with
  | (.error e, st1, _) =>
    (.error (500, "Error processing message: " ++ bootErrorMessage e), st1)
  | (.ok cs, st1, _) =>
    match env.sendMessage cs message with
    | .error msg => (.error (500, "Error processing message: " ++ msg), st1)
    | .ok text => (.ok text, st1)

/-- The JSON body of a successful `/chat` response:
`{"response": ..., "X-Session-Id": ...}`. -/
structure ChatSuccess where
  response : String
  xSessionId : String
deriving DecidableEq

/-- Outcome of an HTTP request: a success body, or an error status with a
`detail` string. -/
inductive HttpResult where
  | ok (body : ChatSuccess)
  | error (status : Nat) (detail : String)
deriving DecidableEq

/-- The `POST /chat` endpoint: resolve the session id from the optional
header, call `get_response`, and either return
`{"response": text, "X-Session-Id": sid}` or re-raise the `HTTPException`. -/
def chatEndpoint (env : Env) (st : WrapperState) (header : Option String)
    (freshUuid message : String) : HttpResult × WrapperState :=
  let sid := getSessionId header freshUuid
  match getResponse env st message sid with
  | (.ok text, st1) => (.ok ⟨text, sid⟩, st1)
  | (.error (status, detail), st1) => (.error status detail, st1)

/-- The startup half of the `lifespan` context manager: run
`upload_and_process_files`, catching any exception and turning it into a log
line; in every case the function returns and the server goes on to serve. -/
def lifespanStartup (env : Env) (st : WrapperState) :
    WrapperState × Option String :=
  match uploadAndProcessFiles env st with
  | (.ok _, st1, _) => (st1, none)
  | (.error e, st1, _) =>
    (st1, some ("Error during startup: " ++ bootErrorMessage e))

/-- The `GET /health` endpoint body. -/
def healthCheck : List (String × String) := [("status", "healthy")]

/-- Reachability invariant of the wrapper state: the `lru_cache` entry of
`upload_and_process_files`, when present, holds exactly the value of
`self.processed_files` (the cache is only ever filled by a successful body
run, which also sets the attribute, and neither is ever cleared). -/
def WrapperInv (st : WrapperState) : Prop :=
  ∀ v, st.uploadCache = some v → st.processedFiles = some v

/-- A `get_file` oracle under which every document becomes `ACTIVE` within
30 observations of its own, yet document `"b"` is starved: document `"a"`
consumes the entire shared retry budget (observations 0..29 are
`PROCESSING`, observation 30 is `ACTIVE`), while `"b"` needs a single
retry (`PROCESSING` at observation 0, `ACTIVE` from observation 1 on). -/
def c1Oracle : String → Nat → FileState := fun n k =>
  if n = "a" then (if k < 30 then .processing else .active)
  else if k = 0 then .processing else .active

/-- A benign environment: all files exist, every upload succeeds, every
uploaded file is immediately `ACTIVE`, and `send_message` echoes. -/
def envOk : Env :=
  { fileExists := fun _ => true
    uploadFile := fun p => ⟨"files/" ++ p, "uri/" ++ p⟩
    getFile := fun _ _ => .active
    sendMessage := fun _ m => .ok ("echo: " ++ m) }

/-- Environment in which no configured file exists on disk. -/
def envMissing : Env :=
  { envOk with fileExists := fun _ => false }

/-- Environment in which every `get_file` call reports `PROCESSING`. -/
def envStuck : Env :=
  { envOk with getFile := fun _ _ => .processing }

/-- The wrapper state right after `GeminiWrapper.__init__` with script
directory `"d"`. -/
def st0 : WrapperState :=
  { processedFiles := none
    chatSessions := []
    filePaths := ["d/march24.pdf", "d/nov23.pdf"]
    uploadCache := none }

/-- The document list produced by a successful bootstrap of `st0` under
`envOk`. -/
def bootFiles0 : List UploadedFile :=
  [⟨"files/d/march24.pdf", "uri/d/march24.pdf"⟩,
   ⟨"files/d/nov23.pdf", "uri/d/nov23.pdf"⟩]

/-- The wrapper state after a successful bootstrap of `st0` under `envOk`. -/
def st1ok : WrapperState :=
  { processedFiles := some bootFiles0
    chatSessions := []
    filePaths := ["d/march24.pdf", "d/nov23.pdf"]
    uploadCache := some bootFiles0 }

/-- The chat session seeded with the bootstrapped documents. -/
def cs0 : ChatSession := ⟨some bootFiles0⟩

/-- A state in which session `"s1"` already has a handle but no bootstrap
has run. -/
def stWith : WrapperState := { st0 with chatSessions := [("s1", cs0)] }

/-- The state after `get_chat_session` is first called with id `"s1"` on
`st0` under `envOk`: bootstrap done and one stored session. -/
def st2ok : WrapperState := { st1ok with chatSessions := [("s1", cs0)] }

/-- The state after a first `/chat` request with header `"client-id"` on
`st0` under `envOk`. -/
def stC7 : WrapperState := { st1ok with chatSessions := [("client-id", cs0)] }

/-- The inner polling loop performs at most `fuel` further retries. -/
theorem pollWhileAux_retry_le (getF : Nat → FileState) :
    ∀ (fuel : Nat) (s : FileState) (k r t : Nat),
      (pollWhileAux getF fuel s k r t).2.1 ≤ r + fuel := by
  intro fuel
  induction fuel with
  | zero => intro s k r t; simp [pollWhileAux]
  | succ m ih =>
    intro s k r t
    simp only [pollWhileAux]
    split
    · exact le_trans (ih _ _ _ _) (by omega)
    · simp

/-- The inner polling loop sleeps exactly 10 time-units per retry: if the
elapsed time is in step with the retry count on entry, it is on exit. -/
theorem pollWhileAux_time (getF : Nat → FileState) :
    ∀ (fuel : Nat) (s : FileState) (k r t : Nat), t = 10 * r →
      (pollWhileAux getF fuel s k r t).2.2 =
        10 * (pollWhileAux getF fuel s k r t).2.1 := by
  intro fuel
  induction fuel with
  | zero => intro s k r t h; simpa [pollWhileAux] using h
  | succ m ih =>
    intro s k r t h
    simp only [pollWhileAux]
    split
    · exact ih _ _ _ _ (by omega)
    · simpa using h

/-- On success, `_wait_for_files_active` has used at most 30 retries in
total across all files, and has slept 10 time-units per retry. -/
theorem waitFiles_ok_bound (getFile : String → Nat → FileState) :
    ∀ (names : List String) (r t r' t' : Nat), r ≤ 30 → t = 10 * r →
      waitFiles getFile 30 names r t = .ok (r', t') →
      r' ≤ 30 ∧ t' = 10 * r' := by
  intro names
  induction names with
  | nil =>
    intro r t r' t' hr ht h
    simp only [waitFiles, Except.ok.injEq, Prod.mk.injEq] at h
    omega
  | cons n rest ih =>
    intro r t r' t' hr ht h
    simp only [waitFiles, pollWhile] at h
    split at h
    · have h1 := pollWhileAux_retry_le (getFile n) (30 - r) (getFile n 0) 0 r t
      have h2 := pollWhileAux_time (getFile n) (30 - r) (getFile n 0) 0 r t ht
      exact ih _ _ _ _ (by omega) h2 h
    · exact absurd h (by simp)

/-- A `_wait_for_files_active` failure names one of the files it was given,
and the state it reports is the final observed one, which is not `ACTIVE`. -/
theorem waitFiles_error_mem (getFile : String → Nat → FileState) (m : Nat) :
    ∀ (names : List String) (r t : Nat) (n : String) (s : FileState),
      waitFiles getFile m names r t = .error (n, s) →
      n ∈ names ∧ s ≠ .active := by
  intro names
  induction names with
  | nil => intro r t n s h; simp [waitFiles] at h
  | cons a rest ih =>
    intro r t n s h
    simp only [waitFiles] at h
    split at h
    · obtain ⟨h1, h2⟩ := ih _ _ _ _ h
      exact ⟨List.mem_cons_of_mem _ h1, h2⟩
    · rename_i hs
      simp only [Except.error.injEq, Prod.mk.injEq] at h
      obtain ⟨h1, h2⟩ := h
      subst h1
      subst h2
      exact ⟨List.mem_cons_self _ _, hs⟩

/-- C1: the claim reads the 30-attempt ceiling as a per-document budget.
In the source, `retry_count` is initialised once and shared across the
`for name in ...` loop, so the budget is global.  Under `c1Oracle`, every
document reaches `ACTIVE` within 30 polls of its own (document `"a"` at its
30th, `"b"` at its 1st), yet `_wait_for_files_active` fails on `"b"` because
`"a"` exhausted the shared budget and `"b"` is granted no retry at all. -/
theorem C1_counterexample :
    (∀ n ∈ ["a", "b"], ∃ k, k ≤ 30 ∧ c1Oracle n k = .active ∧
        ∀ j, j < k → c1Oracle n j = .processing) ∧
    waitFiles c1Oracle 30 ["a", "b"] 0 0 = .error ("b", .processing) := by
  refine ⟨?_, by rfl⟩
  intro n hn
  rcases List.mem_cons.mp hn with h | h
  · subst h
    exact ⟨30, by omega, by decide, by decide⟩
  · have h' : n = "b" := by simpa using h
    subst h'
    exact ⟨1, by omega, by decide, by decide⟩

/-- C1 (amended): the bootstrap polls documents in order at a fixed
interval of 10 time-units, with a ceiling of 30 polling attempts shared
across all documents together (hence at most 300 time-units of waiting in
total, the 5-minute ceiling); when the shared budget is exhausted a
document whose last observed state is not ready makes the bootstrap declare
failure for that document. -/
theorem C1_polling_ceiling (getFile : String → Nat → FileState)
    (names : List String) :
    (∀ r t, waitFiles getFile 30 names 0 0 = .ok (r, t) →
        r ≤ 30 ∧ t = 10 * r ∧ t ≤ 300) ∧
    (∀ n s, waitFiles getFile 30 names 0 0 = .error (n, s) →
        n ∈ names ∧ s ≠ .active) := by
  constructor
  · intro r t h
    obtain ⟨h1, h2⟩ := waitFiles_ok_bound getFile names 0 0 r t (by omega) (by omega) h
    exact ⟨h1, h2, by omega⟩
  · intro n s h
    exact waitFiles_error_mem getFile 30 names 0 0 n s h

/-- Witness for C1's amended theorem at concrete oracles: a one-document
run that is immediately active stays within the ceiling, and the starved
run of `c1Oracle` fails on a file it was actually given, in a non-active
state. -/
theorem C1_polling_ceiling_witness :
    ((0 : Nat) ≤ 30 ∧ (0 : Nat) = 10 * 0 ∧ (0 : Nat) ≤ 300) ∧
    ("b" ∈ ["a", "b"] ∧ FileState.processing ≠ FileState.active) :=
  ⟨(C1_polling_ceiling (fun _ _ => .active) ["a"]).1 0 0 (by rfl),
   (C1_polling_ceiling c1Oracle ["a", "b"]).2 "b" .processing (by rfl)⟩

/-- If the body of `upload_and_process_files` raises, then
`self.processed_files` was `None` on entry (otherwise the body returns it
immediately). -/
theorem uploadBody_error_processed (env : Env) (st : WrapperState)
    (e : BootError) (ups : List String)
    (h : uploadAndProcessFilesBody env st = (.error e, ups)) :
    st.processedFiles = none := by
  rcases hpf : st.processedFiles with _ | fs
  · rfl
  · simp [uploadAndProcessFilesBody, hpf] at h

/-- A failing `upload_and_process_files` call leaves the wrapper state
untouched, and can only happen when neither the `lru_cache` entry nor
`self.processed_files` was set. -/
theorem upload_error_state (env : Env) (st st' : WrapperState)
    (e : BootError) (ups : List String)
    (h : uploadAndProcessFiles env st = (.error e, st', ups)) :
    st' = st ∧ st.uploadCache = none ∧ st.processedFiles = none := by
  rcases hc : st.uploadCache with _ | v
  · rcases hb : uploadAndProcessFilesBody env st with ⟨r, ups'⟩
    rcases r with e' | p
    · have hpf := uploadBody_error_processed env st e' ups' hb
      simp only [uploadAndProcessFiles, hc, hb, Prod.mk.injEq,
        Except.error.injEq] at h
      exact ⟨h.2.1.symm, rfl, hpf⟩
    · simp [uploadAndProcessFiles, hc, hb] at h
  · simp [uploadAndProcessFiles, hc] at h

/-- A successful `upload_and_process_files` call leaves its result in the
`lru_cache` entry. -/
theorem upload_ok_cache (env : Env) (st st' : WrapperState)
    (v : List UploadedFile) (ups : List String)
    (h : uploadAndProcessFiles env st = (.ok v, st', ups)) :
    st'.uploadCache = some v := by
  rcases hc : st.uploadCache with _ | w
  · rcases hb : uploadAndProcessFilesBody env st with ⟨r, ups'⟩
    rcases r with e' | p
    · simp [uploadAndProcessFiles, hc, hb] at h
    · simp only [uploadAndProcessFiles, hc, hb, Prod.mk.injEq,
        Except.ok.injEq] at h
      rw [← h.2.1]
      simp [h.1]
  · simp only [uploadAndProcessFiles, hc, Prod.mk.injEq, Except.ok.injEq] at h
    rw [← h.2.1, hc, h.1]

/-- The function `upload_and_process_files` never touches `self.chat_sessions` or
`self.file_paths`. -/
theorem upload_sessions_fixed (env : Env) (st : WrapperState) :
    (uploadAndProcessFiles env st).2.1.chatSessions = st.chatSessions ∧
    (uploadAndProcessFiles env st).2.1.filePaths = st.filePaths := by
  rcases hc : st.uploadCache with _ | v
  · rcases hpf : st.processedFiles with _ | fs
    · rcases hm : firstMissingFile env.fileExists st.filePaths with _ | p
      · rcases hw : waitFiles env.getFile 30
            ((st.filePaths.map env.uploadFile).map UploadedFile.name) 0 0
            with a | u
        all_goals rw [List.map_map] at hw
        · simp [uploadAndProcessFiles, uploadAndProcessFilesBody, hc, hpf, hm, hw]
        · simp [uploadAndProcessFiles, uploadAndProcessFilesBody, hc, hpf, hm, hw]
      · simp [uploadAndProcessFiles, uploadAndProcessFilesBody, hc, hpf, hm]
    · simp [uploadAndProcessFiles, uploadAndProcessFilesBody, hc, hpf]
  · simp [uploadAndProcessFiles, hc]

/-- Once `self.processed_files` is set, `upload_and_process_files` keeps it
at the very same value. -/
theorem upload_processed_mono (env : Env) (st : WrapperState)
    (v : List UploadedFile) (h : st.processedFiles = some v) :
    (uploadAndProcessFiles env st).2.1.processedFiles = some v := by
  rcases hc : st.uploadCache with _ | w
  · simp [uploadAndProcessFiles, uploadAndProcessFilesBody, hc, h]
  · simp [uploadAndProcessFiles, hc, h]

/-- On an invariant-respecting state, a successful
`upload_and_process_files` call leaves `self.processed_files` equal to the
returned list. -/
theorem upload_ok_processed (env : Env) (st st' : WrapperState)
    (v : List UploadedFile) (ups : List String) (hinv : WrapperInv st)
    (h : uploadAndProcessFiles env st = (.ok v, st', ups)) :
    st'.processedFiles = some v := by
  rcases hc : st.uploadCache with _ | w
  · rcases hpf : st.processedFiles with _ | fs
    · rcases hm : firstMissingFile env.fileExists st.filePaths with _ | p
      · rcases hw : waitFiles env.getFile 30
            ((st.filePaths.map env.uploadFile).map UploadedFile.name) 0 0
            with a | u
        · rw [List.map_map] at hw
          simp [uploadAndProcessFiles, uploadAndProcessFilesBody, hc, hpf, hm, hw] at h
        · simp only [uploadAndProcessFiles, uploadAndProcessFilesBody, hc, hpf,
            hm, hw, Prod.mk.injEq, Except.ok.injEq] at h
          rw [← h.2.1]
          simp [h.1]
      · simp [uploadAndProcessFiles, uploadAndProcessFilesBody, hc, hpf, hm] at h
    · simp only [uploadAndProcessFiles, uploadAndProcessFilesBody, hc, hpf,
        Prod.mk.injEq, Except.ok.injEq] at h
      rw [← h.2.1]
      simp [hpf, h.1]
  · simp only [uploadAndProcessFiles, hc, Prod.mk.injEq, Except.ok.injEq] at h
    rw [← h.2.1, ← h.1]
    exact hinv w hc

/-- C2: bootstrap is idempotent.  After any call of
`upload_and_process_files` that returns normally with document list `v` and
post-state `st1`, a second call performs no upload at all and returns the
identical cached list `v` with the state unchanged: the `lru_cache` entry
filled by the first call short-circuits the body. -/
theorem C2_bootstrap_idempotent (env : Env) (st st1 : WrapperState)
    (v : List UploadedFile) (ups : List String)
    (h : uploadAndProcessFiles env st = (.ok v, st1, ups)) :
    uploadAndProcessFiles env st1 = (.ok v, st1, []) := by
  have hc := upload_ok_cache env st st1 v ups h
  simp [uploadAndProcessFiles, hc]

/-- Witness for C2: a successful bootstrap from the freshly initialised
state under the benign environment, followed by a second call. -/
theorem C2_bootstrap_idempotent_witness :
    uploadAndProcessFiles envOk st1ok = (.ok bootFiles0, st1ok, []) :=
  C2_bootstrap_idempotent envOk st0 st1ok bootFiles0
    ["d/march24.pdf", "d/nov23.pdf"] (by rfl)

/-- If some configured path is missing, the existence loop reports the
first missing one, which is a missing configured path. -/
theorem firstMissingFile_of_exists (fe : String → Bool) :
    ∀ (paths : List String), (∃ p ∈ paths, fe p = false) →
      ∃ q, firstMissingFile fe paths = some q ∧ q ∈ paths ∧ fe q = false := by
  intro paths
  induction paths with
  | nil => rintro ⟨p, hp, _⟩; cases hp
  | cons a rest ih =>
    rintro ⟨p, hp, hfe⟩
    by_cases ha : fe a = true
    · rcases List.mem_cons.mp hp with h | hmem
      · subst h
        rw [ha] at hfe
        cases hfe
      · obtain ⟨q, h1, h2, h3⟩ := ih ⟨p, hmem, hfe⟩
        exact ⟨q, by simp [firstMissingFile, ha, h1],
          List.mem_cons_of_mem _ h2, h3⟩
    · have ha' : fe a = false := by simpa using ha
      exact ⟨a, by simp [firstMissingFile, ha'], List.mem_cons_self _ _, ha'⟩

/-- C3: if at least one configured path does not exist on disk, a bootstrap
that actually runs (empty cache, no processed files yet) fails with the
missing-file error for a missing configured path, the state is unchanged,
and the empty upload trace shows that no upload call was attempted for any
document. -/
theorem C3_missing_file_fail_fast (env : Env) (st : WrapperState)
    (h0 : st.uploadCache = none) (h1 : st.processedFiles = none)
    (h2 : ∃ p ∈ st.filePaths, env.fileExists p = false) :
    ∃ q ∈ st.filePaths, env.fileExists q = false ∧
      uploadAndProcessFiles env st = (.error (.missingFile q), st, []) := by
  obtain ⟨q, hq1, hq2, hq3⟩ :=
    firstMissingFile_of_exists env.fileExists st.filePaths h2
  exact ⟨q, hq2, hq3,
    by simp [uploadAndProcessFiles, uploadAndProcessFilesBody, h0, h1, hq1]⟩

/-- Witness for C3: the fresh state under the environment where no file
exists. -/
theorem C3_missing_file_fail_fast_witness :
    ∃ q ∈ st0.filePaths, envMissing.fileExists q = false ∧
      uploadAndProcessFiles envMissing st0 =
        (.error (.missingFile q), st0, []) :=
  C3_missing_file_fail_fast envMissing st0 rfl rfl
    ⟨"d/march24.pdf", by decide, rfl⟩

/-- C4: if during a bootstrap that actually runs (empty cache, no processed
files, all paths present) the wait loop observes some document in a final
state that is not ready, the whole bootstrap aborts with a processing error
carrying that document's name and its last observed state, the state is
unchanged (in particular no document list is cached), and the offending
name is one of the uploaded documents. -/
theorem C4_processing_failure_aborts (env : Env) (st : WrapperState)
    (n : String) (s : FileState)
    (h0 : st.uploadCache = none) (h1 : st.processedFiles = none)
    (h2 : firstMissingFile env.fileExists st.filePaths = none)
    (h3 : waitFiles env.getFile 30
        ((st.filePaths.map env.uploadFile).map UploadedFile.name) 0 0 =
        .error (n, s)) :
    uploadAndProcessFiles env st =
      (.error (.processingError n s), st, st.filePaths) ∧
    n ∈ (st.filePaths.map env.uploadFile).map UploadedFile.name ∧
    s ≠ .active := by
  obtain ⟨hm, hs⟩ := waitFiles_error_mem env.getFile 30 _ 0 0 n s h3
  rw [List.map_map] at h3
  exact ⟨by simp [uploadAndProcessFiles, uploadAndProcessFilesBody,
    h0, h1, h2, h3], hm, hs⟩

/-- Witness for C4: the fresh state under the environment where every
`get_file` call reports `PROCESSING` forever. -/
theorem C4_processing_failure_aborts_witness :
    uploadAndProcessFiles envStuck st0 =
      (.error (.processingError "files/d/march24.pdf" .processing), st0,
        st0.filePaths) ∧
    "files/d/march24.pdf" ∈
      (st0.filePaths.map envStuck.uploadFile).map UploadedFile.name ∧
    FileState.processing ≠ FileState.active :=
  C4_processing_failure_aborts envStuck st0 "files/d/march24.pdf"
    .processing rfl rfl (by rfl) (by rfl)

/-- After a successful `get_chat_session` call, the returned session is
what the session store maps the id to. -/
theorem getChat_ok_lookup (env : Env) (st st1 : WrapperState) (sid : String)
    (cs : ChatSession) (ups : List String)
    (h : getChatSession env st sid = (.ok cs, st1, ups)) :
    lookupSession st1.chatSessions sid = some cs := by
  rcases hl : lookupSession st.chatSessions sid with _ | cs'
  · by_cases hpf : st.processedFiles = none
    · rcases hb : uploadAndProcessFiles env st with ⟨r, st2, ups2⟩
      rcases r with e | v
      · simp [getChatSession, hl, hpf, hb] at h
      · simp only [getChatSession, hl, hpf, hb, if_true, Prod.mk.injEq,
          Except.ok.injEq] at h
        obtain ⟨h1, h2, h3⟩ := h
        rw [← h2]
        simp [lookupSession, h1]
    · simp only [getChatSession, hl] at h
      rw [if_neg hpf] at h
      simp only [Prod.mk.injEq, Except.ok.injEq] at h
      obtain ⟨h1, h2, h3⟩ := h
      rw [← h2]
      simp [lookupSession, h1]
  · simp only [getChatSession, hl, Prod.mk.injEq, Except.ok.injEq] at h
    obtain ⟨h1, h2, h3⟩ := h
    rw [← h2, ← h1]
    exact hl

/-- C5: if a session id already has a handle in the store,
`get_chat_session` returns it with no state change and no upload; and in
general any successfully obtained handle is returned again, unchanged, by
an immediately following call with the same id. -/
theorem C5_session_stable (env : Env) (st : WrapperState) (sid : String) :
    (∀ cs, lookupSession st.chatSessions sid = some cs →
        getChatSession env st sid = (.ok cs, st, [])) ∧
    (∀ cs st1 ups, getChatSession env st sid = (.ok cs, st1, ups) →
        getChatSession env st1 sid = (.ok cs, st1, [])) := by
  constructor
  · intro cs h
    simp [getChatSession, h]
  · intro cs st1 ups h
    have hl := getChat_ok_lookup env st st1 sid cs ups h
    simp [getChatSession, hl]

/-- Witness for C5: a state that already stores a handle for `"s1"`, and
the state produced by a first call on the fresh state. -/
theorem C5_session_stable_witness :
    getChatSession envOk stWith "s1" = (.ok cs0, stWith, []) ∧
    getChatSession envOk st2ok "s1" = (.ok cs0, st2ok, []) :=
  ⟨(C5_session_stable envOk stWith "s1").1 cs0 (by rfl),
   (C5_session_stable envOk st0 "s1").2 cs0 st2ok
     ["d/march24.pdf", "d/nov23.pdf"] (by rfl)⟩

/-- C6: a bootstrap failure at startup is only logged: `lifespan` returns
with the wrapper state unchanged (so the server goes on to serve), the
failure is not cached as a success (both the `lru_cache` entry and
`self.processed_files` are still unset), and the next `get_chat_session`
call that finds the document cache empty re-runs the bootstrap and, if it
now succeeds, creates the handle. -/
theorem C6_startup_failure_nonfatal (env : Env) (st st' : WrapperState)
    (e : BootError) (ups : List String)
    (h : uploadAndProcessFiles env st = (.error e, st', ups)) :
    lifespanStartup env st =
      (st, some ("Error during startup: " ++ bootErrorMessage e)) ∧
    st.uploadCache = none ∧ st.processedFiles = none ∧
    (∀ sid env₂ v st₂ ups₂, lookupSession st.chatSessions sid = none →
      uploadAndProcessFiles env₂ st = (.ok v, st₂, ups₂) →
      getChatSession env₂ st sid =
        (.ok ⟨st₂.processedFiles⟩,
          { st₂ with
            chatSessions := (sid, (⟨st₂.processedFiles⟩ : ChatSession)) ::
              st₂.chatSessions },
          ups₂)) := by
  obtain ⟨h1, h2, h3⟩ := upload_error_state env st st' e ups h
  subst h1
  refine ⟨by simp [lifespanStartup, h], h2, h3, ?_⟩
  intro sid env₂ v st₂ ups₂ hs hv
  simp [getChatSession, hs, h3, hv]

/-- Witness for C6: startup under the all-files-missing environment fails
and is only logged; the environment then changes to the benign one and the
first chat request's `get_chat_session` performs the bootstrap. -/
theorem C6_startup_failure_nonfatal_witness :
    lifespanStartup envMissing st0 =
      (st0, some ("Error during startup: " ++
        bootErrorMessage (.missingFile "d/march24.pdf"))) ∧
    st0.uploadCache = none ∧ st0.processedFiles = none ∧
    getChatSession envOk st0 "s1" =
      (.ok ⟨st1ok.processedFiles⟩,
        { st1ok with
          chatSessions := ("s1", (⟨st1ok.processedFiles⟩ : ChatSession)) ::
            st1ok.chatSessions },
        ["d/march24.pdf", "d/nov23.pdf"]) := by
  obtain ⟨h1, h2, h3, h4⟩ := C6_startup_failure_nonfatal envMissing st0 st0
    (.missingFile "d/march24.pdf") [] (by rfl)
  exact ⟨h1, h2, h3, h4 "s1" envOk bootFiles0 st1ok
    ["d/march24.pdf", "d/nov23.pdf"] (by rfl) (by rfl)⟩

/-- The function `get_response` leaves the state exactly as `get_chat_session` left it,
whether or not sending succeeds. -/
theorem getResponse_state (env : Env) (st : WrapperState)
    (message sid : String) :
    (getResponse env st message sid).2 = (getChatSession env st sid).2.1 := by
  rcases hg : getChatSession env st sid with ⟨r, st1, ups⟩
  rcases r with e | cs
  · simp [getResponse, hg]
  · rcases hs : env.sendMessage cs message with msg | text
    · simp [getResponse, hg, hs]
    · simp [getResponse, hg, hs]

/-- Every failure `get_response` reports is an HTTP 500. -/
theorem getResponse_error_500 (env : Env) (st : WrapperState)
    (message sid : String) (c : Nat) (d : String)
    (h : (getResponse env st message sid).1 = .error (c, d)) : c = 500 := by
  rcases hg : getChatSession env st sid with ⟨r, st1, ups⟩
  rcases r with e | cs
  · simp only [getResponse, hg, Prod.mk.injEq, Except.error.injEq] at h
    exact h.1.symm
  · rcases hs : env.sendMessage cs message with msg | text
    · simp only [getResponse, hg, hs, Prod.mk.injEq, Except.error.injEq] at h
      exact h.1.symm
    · simp [getResponse, hg, hs] at h

/-- C7 (counterexample): the `X-Session-Id` header may be present while the
source still generates a fresh id, because `if not session_id` treats an
empty header value like a missing one: with the header present but equal to
`""`, `get_session_id` returns the generated UUID, not the header value. -/
theorem C7_counterexample :
    (some "" ≠ (none : Option String)) ∧
    getSessionId (some "") "generated-uuid" = "generated-uuid" ∧
    "generated-uuid" ≠ "" :=
  ⟨by simp, rfl, by decide⟩

/-- C7 (amended): if the `X-Session-Id` header is present and non-empty,
that exact value is the session identifier; if it is absent or empty, the
freshly generated identifier is used; a successful `/chat` response echoes
the chosen identifier in its `X-Session-Id` field; and every failure is
surfaced as HTTP 500 with a detail string. -/
theorem C7_session_header (env : Env) (st : WrapperState)
    (header : Option String) (freshUuid message : String) :
    (∀ s, header = some s → s ≠ "" → getSessionId header freshUuid = s) ∧
    ((header = none ∨ header = some "") →
        getSessionId header freshUuid = freshUuid) ∧
    (∀ body st1,
        chatEndpoint env st header freshUuid message = (.ok body, st1) →
        body.xSessionId = getSessionId header freshUuid) ∧
    (∀ status detail st1,
        chatEndpoint env st header freshUuid message =
          (.error status detail, st1) →
        status = 500) := by
  refine ⟨?_, ?_, ?_, ?_⟩
  · intro s hs hne
    subst hs
    simp [getSessionId, hne]
  · rintro (h | h) <;> subst h <;> simp [getSessionId]
  · intro body st1 h
    rcases hr : getResponse env st message (getSessionId header freshUuid)
      with ⟨r, st2⟩
    rcases r with ⟨c, d⟩ | text
    · simp [chatEndpoint, hr] at h
    · simp only [chatEndpoint, hr, Prod.mk.injEq, HttpResult.ok.injEq] at h
      rw [← h.1]
  · intro status detail st1 h
    rcases hr : getResponse env st message (getSessionId header freshUuid)
      with ⟨r, st2⟩
    rcases r with ⟨c, d⟩ | text
    · have h5 := getResponse_error_500 env st message
        (getSessionId header freshUuid) c d (by rw [hr])
      simp only [chatEndpoint, hr, Prod.mk.injEq, HttpResult.error.injEq] at h
      rw [← h.1.1, h5]
    · simp [chatEndpoint, hr] at h

/-- Witness for C7's amended theorem: a non-empty header is used verbatim
and echoed on a successful request; a missing header falls back to the
generated id; a request that fails (missing documents) yields status 500. -/
theorem C7_session_header_witness :
    getSessionId (some "client-id") "u0" = "client-id" ∧
    getSessionId none "u0" = "u0" ∧
    (ChatSuccess.mk "echo: hi" "client-id").xSessionId =
      getSessionId (some "client-id") "u0" ∧
    (500 : Nat) = 500 := by
  refine ⟨?_, ?_, ?_, ?_⟩
  · exact (C7_session_header envOk st0 (some "client-id") "u0" "hi").1
      "client-id" rfl (by decide)
  · exact (C7_session_header envOk st0 none "u0" "hi").2.1 (Or.inl rfl)
  · exact (C7_session_header envOk st0 (some "client-id") "u0" "hi").2.2.1
      ⟨"echo: hi", "client-id"⟩ stC7 (by rfl)
  · exact (C7_session_header envMissing st0 none "u0" "hi").2.2.2 500
      ("Error processing message: " ++
        bootErrorMessage (.missingFile "d/march24.pdf")) st0 (by rfl)

/-- C9: on an invariant-respecting state, whenever `get_chat_session` takes
the creation path (the id is not yet in the store) and returns a handle,
that handle was seeded with a present document list — the empty-cache
branch first runs the bootstrap, which either sets `self.processed_files`
or raises — and the post-state's document list is that same list. -/
theorem C9_handle_seeded_with_documents (env : Env) (st st1 : WrapperState)
    (sid : String) (cs : ChatSession) (ups : List String)
    (hinv : WrapperInv st)
    (hnew : lookupSession st.chatSessions sid = none)
    (h : getChatSession env st sid = (.ok cs, st1, ups)) :
    ∃ docs, cs.seededWith = some docs ∧ st1.processedFiles = some docs := by
  by_cases hpf : st.processedFiles = none
  · rcases hb : uploadAndProcessFiles env st with ⟨r, st2, ups2⟩
    rcases r with e | v
    · simp [getChatSession, hnew, hpf, hb] at h
    · have hp2 := upload_ok_processed env st st2 v ups2 hinv hb
      simp only [getChatSession, hnew, hpf, hb, if_true, Prod.mk.injEq,
        Except.ok.injEq] at h
      obtain ⟨h1, h2, h3⟩ := h
      refine ⟨v, ?_, ?_⟩
      · rw [← h1]
        simp [hp2]
      · rw [← h2]
        simpa using hp2
  · rcases hsome : st.processedFiles with _ | fs
    · exact absurd hsome hpf
    · simp only [getChatSession, hnew] at h
      rw [if_neg hpf] at h
      simp only [Prod.mk.injEq, Except.ok.injEq] at h
      obtain ⟨h1, h2, h3⟩ := h
      refine ⟨fs, ?_, ?_⟩
      · rw [← h1]
        simp [hsome]
      · rw [← h2]
        simpa using hsome

/-- Witness for C9: the first creation on the fresh state under the benign
environment seeds the handle with the bootstrapped documents. -/
theorem C9_handle_seeded_with_documents_witness :
    ∃ docs, cs0.seededWith = some docs ∧ st2ok.processedFiles = some docs :=
  C9_handle_seeded_with_documents envOk st0 st2ok "s1" cs0
    ["d/march24.pdf", "d/nov23.pdf"]
    (by intro v hv; simp [st0] at hv) rfl (by rfl)

/-- Once `self.processed_files` is set, `get_chat_session` keeps it at the
very same value. -/
theorem getChat_processed_mono (env : Env) (st : WrapperState)
    (sid : String) (v : List UploadedFile) (h : st.processedFiles = some v) :
    (getChatSession env st sid).2.1.processedFiles = some v := by
  rcases hl : lookupSession st.chatSessions sid with _ | cs
  · simp [getChatSession, hl, h]
  · simp [getChatSession, hl, h]

/-- A `get_chat_session` call never removes or overwrites an existing
store entry: any id already mapped keeps its handle. -/
theorem getChat_lookup_mono (env : Env) (st : WrapperState)
    (sid k : String) (cs : ChatSession)
    (h : lookupSession st.chatSessions k = some cs) :
    lookupSession (getChatSession env st sid).2.1.chatSessions k = some cs := by
  rcases hl : lookupSession st.chatSessions sid with _ | cs'
  · have hk : k ≠ sid := by
      intro he
      rw [he, hl] at h
      exact Option.noConfusion h
    by_cases hpf : st.processedFiles = none
    · rcases hb : uploadAndProcessFiles env st with ⟨r, st2, ups2⟩
      have hses : st2.chatSessions = st.chatSessions := by
        have := (upload_sessions_fixed env st).1
        rw [hb] at this
        exact this
      rcases r with e | v
      · simp [getChatSession, hl, hpf, hb, hses, h]
      · simp [getChatSession, hl, hpf, hb, lookupSession, hk, hses, h]
    · simp only [getChatSession, hl]
      rw [if_neg hpf]
      simp [lookupSession, hk, h]
  · simp [getChatSession, hl, h]

/-- The state reached by the `/chat` endpoint is the state reached by
`get_chat_session` with the resolved session id. -/
theorem chatEndpoint_state (env : Env) (st : WrapperState)
    (header : Option String) (freshUuid message : String) :
    (chatEndpoint env st header freshUuid message).2 =
      (getChatSession env st (getSessionId header freshUuid)).2.1 := by
  rcases hr : getResponse env st message (getSessionId header freshUuid)
    with ⟨r, st1⟩
  have hst := getResponse_state env st message (getSessionId header freshUuid)
  rw [hr] at hst
  rcases r with ⟨c, d⟩ | text
  · simpa [chatEndpoint, hr] using hst
  · simpa [chatEndpoint, hr] using hst

/-- The state after the startup hook is the state after
`upload_and_process_files`. -/
theorem lifespan_state (env : Env) (st : WrapperState) :
    (lifespanStartup env st).1 = (uploadAndProcessFiles env st).2.1 := by
  rcases hb : uploadAndProcessFiles env st with ⟨r, st1, ups⟩
  rcases r with e | v <;> simp [lifespanStartup, hb]

/-- C10: both process-wide stores are monotone write-once-per-key under
every operation of the wrapper (the bootstrap, `get_chat_session`, a whole
`/chat` request, and the startup hook): once `self.processed_files` holds a
list it still holds that very list afterwards, and once a session id maps
to a handle it still maps to that very handle afterwards. -/
theorem C10_stores_monotone (env : Env) (st : WrapperState)
    (header : Option String) (freshUuid message sid : String) :
    (∀ v, st.processedFiles = some v →
      (uploadAndProcessFiles env st).2.1.processedFiles = some v ∧
      (getChatSession env st sid).2.1.processedFiles = some v ∧
      (chatEndpoint env st header freshUuid message).2.processedFiles = some v ∧
      (lifespanStartup env st).1.processedFiles = some v) ∧
    (∀ k cs, lookupSession st.chatSessions k = some cs →
      lookupSession (uploadAndProcessFiles env st).2.1.chatSessions k = some cs ∧
      lookupSession (getChatSession env st sid).2.1.chatSessions k = some cs ∧
      lookupSession (chatEndpoint env st header freshUuid message).2.chatSessions k
        = some cs ∧
      lookupSession (lifespanStartup env st).1.chatSessions k = some cs) := by
  constructor
  · intro v hv
    refine ⟨upload_processed_mono env st v hv,
      getChat_processed_mono env st sid v hv, ?_, ?_⟩
    · rw [chatEndpoint_state]
      exact getChat_processed_mono env st _ v hv
    · rw [lifespan_state]
      exact upload_processed_mono env st v hv
  · intro k cs hk
    refine ⟨?_, getChat_lookup_mono env st sid k cs hk, ?_, ?_⟩
    · rw [(upload_sessions_fixed env st).1]
      exact hk
    · rw [chatEndpoint_state]
      exact getChat_lookup_mono env st _ k cs hk
    · rw [lifespan_state, (upload_sessions_fixed env st).1]
      exact hk

/-- Witness for C10: a state with the bootstrap done and one stored
session, run through every operation. -/
theorem C10_stores_monotone_witness :
    ((uploadAndProcessFiles envOk st2ok).2.1.processedFiles =
        some bootFiles0 ∧
      (getChatSession envOk st2ok "s1").2.1.processedFiles =
        some bootFiles0 ∧
      (chatEndpoint envOk st2ok (some "s1") "u0" "hi").2.processedFiles =
        some bootFiles0 ∧
      (lifespanStartup envOk st2ok).1.processedFiles = some bootFiles0) ∧
    (lookupSession (uploadAndProcessFiles envOk st2ok).2.1.chatSessions "s1" =
        some cs0 ∧
      lookupSession (getChatSession envOk st2ok "s1").2.1.chatSessions "s1" =
        some cs0 ∧
      lookupSession
          (chatEndpoint envOk st2ok (some "s1") "u0" "hi").2.chatSessions "s1" =
        some cs0 ∧
      lookupSession (lifespanStartup envOk st2ok).1.chatSessions "s1" =
        some cs0) :=
  ⟨(C10_stores_monotone envOk st2ok (some "s1") "u0" "hi" "s1").1
      bootFiles0 rfl,
   (C10_stores_monotone envOk st2ok (some "s1") "u0" "hi" "s1").2
      "s1" cs0 (by rfl)⟩

end AiProfs
